import Mathlib

set_option maxRecDepth 10000

/-!
Formal model of the Gamescan API core (src/server.js): the bounded-concurrency
job admission queue (lines 136-161), the analysis pipeline `handleAnalysis`
(lines 185-317) with its result cache, the retry loop `openaiRetry`
(lines 174-182), and the durable cache persistence `atomicWrite` / `loadCache`
(lines 96-109).

Modelling conventions:
  - the cryptographic sha256 digest of the uploaded bytes is modelled by the
    byte list itself (a deterministic injective stand-in);
  - the template-string cache key videoHash|game|userTier|detailLevel is
    modelled as the tuple of its four components;
  - external collaborators (the two ffmpeg subprocesses and the OpenAI call)
    are modelled by an environment record saying how they behave during one
    job execution; their invocations are recorded as observable effects;
  - the single-threaded JS event loop is modelled by a step function per
    event: a submission event (the POST /analyze handler calling enqueue) and
    a settlement event (the then/catch/finally of a dispatched job);
  - the random chart data, token-usage accounting, cost counters and the
    whitespace normalisation applyDynamicSpacing only decorate the response
    text; they are surface data not modelled.
-/

/-- Deterministic fields of the `responseData` object assembled by
handleAnalysis (src/server.js lines 306-310); `charts`, `usage` and
`timestamp` are random or pass-through accounting data, not modelled. -/
structure Resp where
  success : Bool
  game : String
  responseType : String
  detailLevel : String
  focusAreas : List String
  analysis : String
  keyMoments : List String
  modelUsed : String
  framesUsed : Nat
  frameScale : String
  cached : Bool
deriving DecidableEq

/-- The JSON value a job function resolves with: either a failure object
(success:false plus an error string, lines 192 and 198) or a success
payload. A thrown error is modelled separately by Except.error. -/
inductive JsResult
  | failure (error : String)
  | success (r : Resp)
deriving DecidableEq

/-- The cache key template string videoHash|game|userTier|detailLevel
(src/server.js line 207), modelled as the tuple of its four components. -/
structure CacheKey where
  videoHash : List Nat
  game : String
  userTier : String
  detailLevel : String
deriving DecidableEq

/-- The in-memory analysisCache (a JS Map), modelled as an association list
in insertion order. -/
abbrev Cache := List (CacheKey × Resp)

/-- Map.get composed with Map.has: first entry with the given key. -/
def Cache.lookup : Cache → CacheKey → Option Resp
  | [], _ => none
  | e :: rest, k => if e.1 = k then some e.2 else Cache.lookup rest k

/-- Map.set: overwrite the existing entry for the key or append a new one. -/
def Cache.set : Cache → CacheKey → Resp → Cache
  | [], k, v => [(k, v)]
  | e :: rest, k, v => if e.1 = k then (k, v) :: rest else e :: Cache.set rest k v

/-- One submitted analysis request as seen by handleAnalysis after multer and
body destructuring (the destructuring defaults of line 186-190 are already
applied).  `detectedType` models the fileTypeFromFile call of line 195:
none means the call throws (swallowed by the empty catch of line 200),
some none means no type was detected, some (some m) means mime m was
detected.  `game` and `responseType` are none when the body field is absent
or empty (falsy).  `focusAreas` is the parsed body value: some l when it is
an array, none otherwise (line 202-204).  `callerId` stands for the caller
identity (API key / client IP); handleAnalysis never reads it. -/
structure Req where
  filePresent : Bool
  fileBytes : List Nat
  detectedType : Option (Option String)
  game : Option String
  responseType : Option String
  language : String
  feedbackStyle : String
  detailLevel : String
  skillLevel : String
  audioInClip : String
  playerBio : String
  extraNotes : String
  userTier : String
  focusAreas : Option (List String)
  callerId : String
deriving DecidableEq

/-- Behaviour of the external collaborators during one job execution:
`keyTimes` is the list of scene timestamps the pts_time match of line 220
produced, `framesFound` the number of frame files present in frameDir after
the extraction attempt of lines 233-238 (extraction failure is logged and
swallowed, so only the files on disk matter), `analyzerFailures` the number
of leading OpenAI attempts that throw, `analyzerText` the completion content
on a successful attempt. -/
structure Env where
  keyTimes : List Nat
  framesFound : Nat
  analyzerFailures : Nat
  analyzerText : String
deriving DecidableEq

/-- The interpolated context fields of the prompt template of lines 257-277;
each field holds exactly the value spliced into the template, including the
JS falsy-or defaults of lines 269-271. -/
structure Prompt where
  game : String
  weightedFocus : List (String × Nat)
  skillLevel : String
  feedbackStyle : String
  language : String
  audioInClip : String
  detailLevel : String
  keyMoments : String
  extraNotes : String
  playerBio : String
deriving DecidableEq

/-- The argument of openai.chat.completions.create (lines 282-290): the
selected model, the prompt context, max_tokens and the number of attached
frame images. -/
structure Payload where
  model : String
  prompt : Prompt
  maxTokens : Nat
  imageCount : Nat
deriving DecidableEq

/-- Observable side effects of one handleAnalysis run: number of unlink
calls on the uploaded file, whether the two ffmpeg subprocesses ran, the
scratch frame directory lifecycle, and the analyzer attempts with the
backoff delays slept between them. -/
structure Effects where
  uploadUnlinks : Nat := 0
  sceneDetectCalled : Bool := false
  extractorCalled : Bool := false
  frameDirCreated : Bool := false
  framesUnlinked : Bool := false
  frameDirRemoved : Bool := false
  analyzerAttempts : Nat := 0
  analyzerSlept : List Nat := []
  analyzerPayload : Option Payload := none
deriving DecidableEq

/-- Outcome of openaiRetry: success after `attempts` calls, or exhaustion
(the last error is rethrown); `slept` records the backoff delays awaited. -/
inductive RetryResult
  | success (attempts : Nat) (slept : List Nat)
  | exhausted (attempts : Nat) (slept : List Nat)
deriving DecidableEq

/-- The for-loop of openaiRetry (lines 176-181): `remaining` iterations are
left, `i` attempts have been made, `delay` is the current backoff; attempt
number i throws iff i < failures; a failing final attempt rethrows without
sleeping, otherwise the loop sleeps `delay` and doubles it. -/
def retryGo (failures : Nat) (remaining i delay : Nat) (slept : List Nat) :
    RetryResult :=
  match remaining with
  | 0 => RetryResult.exhausted i slept
  | r + 1 =>
    if i < failures then
      if r = 0 then RetryResult.exhausted (i + 1) slept
      else retryGo failures r (i + 1) (delay * 2) (slept ++ [delay])
    else RetryResult.success (i + 1) slept

/-- openaiRetry(payload, tries): initial delay 800 ms, doubled after each
failed non-final attempt (src/server.js lines 174-182). -/
def openaiRetry (failures : Nat) (tries : Nat) : RetryResult :=
  retryGo failures tries 0 800 []

/-- sha256 over the uploaded bytes (line 164), modelled by the byte list
itself: a deterministic, injective stand-in for the cryptographic digest. -/
def sha256 (bytes : List Nat) : List Nat := bytes

/-- The cache key computed at line 207 from the digest and the three option
fields game, userTier and detailLevel; no other request data enters it. -/
def cacheKeyOf (req : Req) : CacheKey :=
  { videoHash := sha256 req.fileBytes
    game := req.game.getD ""
    userTier := req.userTier
    detailLevel := req.detailLevel }

/-- Character-list core of the startsWith test used at line 196. -/
def charsStartWith : List Char → List Char → Bool
  | _, [] => true
  | [], _ :: _ => false
  | c :: cs, d :: ds => if c = d then charsStartWith cs ds else false

/-- JS String.prototype.startsWith over the underlying character data. -/
def strStartsWith (s p : String) : Bool := charsStartWith s.data p.data

/-- The validation branch of lines 195-199: true exactly when the detected
type is absent or its mime does not start with video/ (the branch that
unlinks the upload and returns the Invalid video failure).  When
fileTypeFromFile itself throws, the empty catch of line 200 falls through
and validation does not fail. -/
def failsValidation (req : Req) : Bool :=
  match req.detectedType with
  | none => false
  | some none => true
  | some (some m) => !(strStartsWith m "video/")

/-- focusList of line 204: the parsed array truncated to five entries, or
the singleton overall. -/
def focusListOf (req : Req) : List String :=
  match req.focusAreas with
  | some l => l.take 5
  | none => ["overall"]

/-- The importance weights of line 255: list index into 40,30,20,15,10 with
fallback 10. -/
def weightedFocusOf (focusList : List String) : List (String × Nat) :=
  focusList.enum.map (fun p => (p.2, [40, 30, 20, 15, 10].getD p.1 10))

/-- Frame count and scale of lines 229-231: defaults 3 and 720:-1, detail
high raises the count to 4, tier master overrides both to 6 and 960:-1. -/
def frameParams (detailLevel userTier : String) : Nat × String :=
  let fc := if detailLevel = "high" then 4 else 3
  if userTier = "master" then (6, "960:-1") else (fc, "720:-1")

/-- Model selection of lines 249-251. -/
def modelFor (userTier detailLevel : String) : String :=
  if userTier = "pro" then
    (if detailLevel = "high" then "gpt-4o" else "gpt-4o-mini")
  else if userTier = "master" then
    (if detailLevel = "high" then "gpt-4.1" else "gpt-4o")
  else "gpt-4o-mini"

/-- TOKEN_LIMITS lookup with fallback 900 (lines 245 and 288). -/
def tokenLimit (userTier : String) : Nat :=
  if userTier = "free" then 800
  else if userTier = "gamer" then 900
  else if userTier = "pro" then 1200
  else if userTier = "master" then 1500
  else 900

/-- JS falsy-or on strings: the default replaces the empty string. -/
def orElseStr (s d : String) : String := if s = "" then d else s

/-- keyMoments of line 223: the first ten scene times rendered as seconds. -/
def keyMomentsOf (env : Env) : List String :=
  (env.keyTimes.take 10).map (fun t => toString t ++ "s")

/-- The prompt context of lines 257-277 for one request and environment. -/
def promptOf (req : Req) (env : Env) (game : String) : Prompt :=
  { game := game
    weightedFocus := weightedFocusOf (focusListOf req)
    skillLevel := req.skillLevel
    feedbackStyle := req.feedbackStyle
    language := req.language
    audioInClip := req.audioInClip
    detailLevel := req.detailLevel
    keyMoments := orElseStr (String.intercalate ", " (keyMomentsOf env)) "None"
    extraNotes := orElseStr req.extraNotes "None"
    playerBio := orElseStr req.playerBio "N/A" }

/-- The OpenAI call argument of lines 282-290. -/
def payloadOf (req : Req) (env : Env) (game : String) : Payload :=
  { model := modelFor req.userTier req.detailLevel
    prompt := promptOf req env game
    maxTokens := tokenLimit req.userTier
    imageCount := (List.range env.framesFound).length }

/-- The responseData object of lines 306-310 for a fresh (non-cached)
successful run. -/
def freshResp (req : Req) (env : Env) (game responseType : String) : Resp :=
  { success := true
    game := game
    responseType := responseType
    detailLevel := req.detailLevel
    focusAreas := focusListOf req
    analysis := env.analyzerText
    keyMoments := keyMomentsOf env
    modelUsed := modelFor req.userTier req.detailLevel
    framesUsed := (List.range env.framesFound).length
    frameScale := (frameParams req.detailLevel req.userTier).2
    cached := false }

/-- Effects of the path that reaches the OpenAI call and exhausts its
retries (the throw escapes handleAnalysis before the cleanup of lines
312-313): the upload was already unlinked at line 239 and both ffmpeg
subprocesses ran, but the frame files and the scratch directory remain. -/
def effExhausted (attempts : Nat) (slept : List Nat) (p : Payload) : Effects :=
  { uploadUnlinks := 1
    sceneDetectCalled := true
    extractorCalled := true
    frameDirCreated := true
    framesUnlinked := false
    frameDirRemoved := false
    analyzerAttempts := attempts
    analyzerSlept := slept
    analyzerPayload := some p }

/-- Effects of the fully successful path: lines 312-313 unlink every frame
file and remove the scratch directory. -/
def effSuccess (attempts : Nat) (slept : List Nat) (p : Payload) : Effects :=
  { uploadUnlinks := 1
    sceneDetectCalled := true
    extractorCalled := true
    frameDirCreated := true
    framesUnlinked := true
    frameDirRemoved := true
    analyzerAttempts := attempts
    analyzerSlept := slept
    analyzerPayload := some p }

/-- handleAnalysis (src/server.js lines 185-317), as the function from the
request, the external behaviour and the cache state at execution time to
the settled outcome (Except.error models a thrown error), the observable
effects and the cache afterwards.
Path by path: missing required fields return a failure object without
touching the upload (line 192: note no unlink there); failed media-kind
validation unlinks the upload and returns the Invalid video failure (lines
196-199); a cache hit unlinks the upload and returns the stored entry with
cached set to true (lines 208-211); otherwise scene detection, frame dir
creation, the extraction attempt and the upload unlink happen (lines
213-242), then the OpenAI call: on retry exhaustion the error propagates
with frames and scratch dir still on disk, on success the frames and dir
are removed and the response is written through into the cache (lines
282-316). -/
def handleAnalysis (req : Req) (env : Env) (cache : Cache) :
    Except Unit JsResult × Effects × Cache :=
  match req.filePresent, req.game, req.responseType with
  | false, _, _ =>
      (Except.ok (JsResult.failure "Missing required fields"), {}, cache)
  | true, none, _ =>
      (Except.ok (JsResult.failure "Missing required fields"), {}, cache)
  | true, some _, none =>
      (Except.ok (JsResult.failure "Missing required fields"), {}, cache)
  | true, some game, some responseType =>
    if failsValidation req then
      (Except.ok (JsResult.failure "Invalid video"), { uploadUnlinks := 1 }, cache)
    else
      match Cache.lookup cache (cacheKeyOf req) with
      | some entry =>
          (Except.ok (JsResult.success { entry with cached := true }),
           { uploadUnlinks := 1 }, cache)
      | none =>
          match openaiRetry env.analyzerFailures 3 with
          | RetryResult.exhausted attempts slept =>
              (Except.error (),
               effExhausted attempts slept (payloadOf req env game), cache)
          | RetryResult.success attempts slept =>
              (Except.ok (JsResult.success (freshResp req env game responseType)),
               effSuccess attempts slept (payloadOf req env game),
               Cache.set cache (cacheKeyOf req) (freshResp req env game responseType))

/-- Admission state (src/server.js line 136): `runningIds` refines the
`running` counter (the counter is its length) so that per-job response
delivery can be tracked; `queue` is the pending FIFO array; `notifiedQueued`
records every emitted queued-at-position response together with the reported
1-based position (for these jobs res.headersSent is true); `deliveredTo`
records the jobs whose terminal result was written to their res handle;
`finished` records settled jobs. -/
structure QState where
  runningIds : List Nat := []
  queue : List Nat := []
  notifiedQueued : List (Nat × Nat) := []
  deliveredTo : List Nat := []
  finished : List Nat := []
deriving DecidableEq

/-- The running counter is the number of currently dispatched jobs. -/
def QState.running (s : QState) : Nat := s.runningIds.length

/-- The state at process start: running = 0, empty queue. -/
def QState.init : QState := {}

/-- processNext (lines 149-152): return unless a worker slot is free and the
queue is non-empty; otherwise shift the queue head and start it. -/
def processNext (maxConcurrent : Nat) (s : QState) : QState :=
  if maxConcurrent ≤ s.running then s
  else
    match s.queue with
    | [] => s
    | j :: rest => { s with runningIds := s.runningIds ++ [j], queue := rest }

/-- enqueue (lines 137-148): unconditionally push the job onto the queue; if
running is at the ceiling, respond with the queued-at-position notice whose
position is the queue length after the push; then processNext.  Note that
the MAX_QUEUE configuration constant is not consulted: there is no rejection
path. -/
def enqueue (maxConcurrent : Nat) (j : Nat) (s : QState) : QState :=
  processNext maxConcurrent
    (if maxConcurrent ≤ s.running then
      { s with
        queue := s.queue ++ [j]
        notifiedQueued := s.notifiedQueued ++ [(j, (s.queue ++ [j]).length)] }
     else { s with queue := s.queue ++ [j] })

/-- MAX_QUEUE (line 34): parsed from the environment with default 50, and
never read again anywhere in the file. -/
def MAX_QUEUE (envValue : Option Nat) : Nat := envValue.getD 50

/-- The then/catch/finally of a dispatched job (lines 153-160): the terminal
response is written to res only when headersSent is false, which holds
exactly when no queued notification was emitted for the job; then the
finally block decrements running (removes the job) and runs processNext
once. -/
def settleJob (maxConcurrent : Nat) (j : Nat) (s : QState) : QState :=
  processNext maxConcurrent
    (if j ∈ s.notifiedQueued.map Prod.fst then
      { s with runningIds := s.runningIds.erase j, finished := s.finished ++ [j] }
     else
      { s with
        deliveredTo := s.deliveredTo ++ [j]
        runningIds := s.runningIds.erase j
        finished := s.finished ++ [j] })

/-- Admission states reachable from process start by submission events and
settlement events of running jobs. -/
inductive Reach (maxConcurrent : Nat) : QState → Prop
  | start : Reach maxConcurrent QState.init
  | step_enqueue (s : QState) (j : Nat) :
      Reach maxConcurrent s → Reach maxConcurrent (enqueue maxConcurrent j s)
  | step_settle (s : QState) (j : Nat) :
      Reach maxConcurrent s → j ∈ s.runningIds →
      Reach maxConcurrent (settleJob maxConcurrent j s)

/-- The composed system: the admission state, the request attached to every
submitted job id, the shared cache, and every settled job outcome with its
effects. -/
structure Sys where
  qs : QState := {}
  reqs : List (Nat × Req) := []
  cache : Cache := []
  results : List (Nat × Except Unit JsResult) := []
  effectsOf : List (Nat × Effects) := []

/-- First association for a job id. -/
def lookupA {α : Type} : List (Nat × α) → Nat → Option α
  | [], _ => none
  | e :: rest, j => if e.1 = j then some e.2 else lookupA rest j

/-- The POST /analyze handler (lines 325-326): enqueue the job function
handleAnalysis(req) under the response handle.  The cache is not consulted
here: admission is identical for every request. -/
def submitReq (maxConcurrent : Nat) (j : Nat) (req : Req) (sys : Sys) : Sys :=
  { sys with
    qs := enqueue maxConcurrent j sys.qs
    reqs := sys.reqs ++ [(j, req)] }

/-- Settlement of a dispatched job j under external behaviour env: its
handleAnalysis runs against the cache as of settlement time (the event loop
serialises all cache access), the outcome and effects are recorded, and the
response/finally logic of settleJob runs. -/
def settleReq (maxConcurrent : Nat) (j : Nat) (env : Env) (sys : Sys) : Sys :=
  match lookupA sys.reqs j with
  | none => sys
  | some req =>
    { sys with
      qs := settleJob maxConcurrent j sys.qs
      cache := (handleAnalysis req env sys.cache).2.2
      results := sys.results ++ [(j, (handleAnalysis req env sys.cache).1)]
      effectsOf := sys.effectsOf ++ [(j, (handleAnalysis req env sys.cache).2.1)] }

/-- True when a settled result was recorded for the job. -/
def gotResult (sys : Sys) (j : Nat) : Bool :=
  match lookupA sys.results j with
  | some _ => true
  | none => false

/-- True when the recorded result of the job is a thrown error. -/
def isErrResult (sys : Sys) (j : Nat) : Bool :=
  match lookupA sys.results j with
  | some (Except.error _) => true
  | _ => false

/-- Effects recorded for a settled job (defaults if absent). -/
def effectsAt (sys : Sys) (j : Nat) : Effects :=
  (lookupA sys.effectsOf j).getD {}

/-- The durable-store file system for the cache file: path to contents. -/
abbrev FS := List (String × String)

/-- Contents at a path. -/
def FS.read : FS → String → Option String
  | [], _ => none
  | e :: rest, p => if e.1 = p then some e.2 else FS.read rest p

/-- fs.writeFile: create or overwrite the file at the path. -/
def FS.write : FS → String → String → FS
  | [], p, c => [(p, c)]
  | e :: rest, p, c => if e.1 = p then (p, c) :: rest else e :: FS.write rest p c

/-- Removal of a path (used by rename). -/
def FS.removeFile : FS → String → FS
  | [], _ => []
  | e :: rest, p => if e.1 = p then rest else e :: FS.removeFile rest p

/-- fs.rename src dst: atomically replace dst with src (no-op when src is
absent). -/
def FS.rename (fs : FS) (src dst : String) : FS :=
  match FS.read fs src with
  | none => fs
  | some c => FS.write (FS.removeFile fs src) dst c

/-- The temporary path of atomicWrite (line 97). -/
def tmpName (file : String) (now : Nat) : String :=
  file ++ ".tmp-" ++ toString now

/-- atomicWrite run to completion (lines 96-99): write the temporary file,
then rename it over the durable file. -/
def atomicWrite (fs : FS) (file : String) (now : Nat) (data : String) : FS :=
  FS.rename (FS.write fs (tmpName file now) data) (tmpName file now) file

/-- Every durable state a crash during atomicWrite can leave behind: before
anything happened, after a torn temporary write (an arbitrary byte string
halfData, covering truncation), after the complete temporary write, and
after the rename.  The rename itself is atomic. -/
def atomicWriteCrashStates (fs : FS) (file : String) (now : Nat)
    (data halfData : String) : List FS :=
  [fs,
   FS.write fs (tmpName file now) halfData,
   FS.write fs (tmpName file now) data,
   atomicWrite fs file now data]

/-- loadCache (lines 100-108): existsSync then JSON.parse inside try/catch;
with the file missing the initial empty Map stands, and a parse throw is
caught leaving the cache empty.  `parse` models JSON.parse plus
Object.entries (none = throw).  The function is total: restore never
raises. -/
def loadCache (fs : FS) (cacheFile : String)
    (parse : String → Option (List (String × String))) : List (String × String) :=
  match FS.read fs cacheFile with
  | none => []
  | some s =>
    match parse s with
    | none => []
    | some m => m

/-- A well-formed video request used throughout the concrete scenarios. -/
def reqHit : Req :=
  { filePresent := true
    fileBytes := [1, 2, 3]
    detectedType := some (some "video/mp4")
    game := some "fortnite"
    responseType := some "text"
    language := "en"
    feedbackStyle := "casual"
    detailLevel := "normal"
    skillLevel := "Unknown"
    audioInClip := "false"
    playerBio := ""
    extraNotes := ""
    userTier := "free"
    focusAreas := some ["aim"]
    callerId := "caller-1" }

/-- A stored cache entry for the key of reqHit. -/
def respStored : Resp :=
  { success := true
    game := "fortnite"
    responseType := "text"
    detailLevel := "normal"
    focusAreas := ["aim"]
    analysis := "great aim"
    keyMoments := []
    modelUsed := "gpt-4o-mini"
    framesUsed := 3
    frameScale := "720:-1"
    cached := false }

/-- A second well-formed request with different content bytes. -/
def reqY : Req := { reqHit with fileBytes := [4, 5, 6] }

/-- A request whose artifact is not a video (detected mime image/png). -/
def reqBad : Req := { reqHit with detectedType := some (some "image/png"), fileBytes := [9] }

/-- A request for the analyzer-failure scenario. -/
def reqC3 : Req := { reqHit with fileBytes := [7, 7] }

/-- External behaviour where everything succeeds at the first attempt. -/
def envOK : Env :=
  { keyTimes := [], framesFound := 2, analyzerFailures := 0, analyzerText := "nice" }

/-- External behaviour where the OpenAI call fails on every attempt. -/
def envFail3 : Env :=
  { keyTimes := [], framesFound := 2, analyzerFailures := 3, analyzerText := "" }

/-- A system whose cache already holds the entry for reqHit. -/
def sysHit : Sys := { cache := [(cacheKeyOf reqHit, respStored)] }

/-- MAX_CONCURRENT = 1: one valid job submitted and dispatched. -/
def sysA : Sys := submitReq 1 1 reqHit {}

/-- The invalid-artifact submission arriving while the pool is saturated. -/
def sysB : Sys := submitReq 1 2 reqBad sysA

/-- FIFO scenario for C4: a second valid submission while saturated. -/
def sysC4a : Sys := submitReq 1 1 reqHit {}

/-- Second step of the C4 scenario. -/
def sysC4b : Sys := submitReq 1 2 reqY sysC4a

/-- C5 trace, step 1: job 1 submitted and running (MAX_CONCURRENT = 1). -/
def sys5a : Sys := submitReq 1 1 reqHit {}

/-- C5 trace, step 2: job 2 submitted, answered queued at position 1. -/
def sys5b : Sys := submitReq 1 2 reqY sys5a

/-- C5 trace, step 3: job 1 settles successfully; job 2 is dispatched. -/
def sys5c : Sys := settleReq 1 1 envOK sys5b

/-- C5 trace, step 4: job 2 settles. -/
def sys5d : Sys := settleReq 1 2 envOK sys5c

/-- C7 trace: like the C5 trace but job 2 exhausts the analyzer retries. -/
def sys7a : Sys := submitReq 1 1 reqHit {}

/-- C7 trace, step 2. -/
def sys7b : Sys := submitReq 1 2 reqY sys7a

/-- C7 trace, step 3. -/
def sys7c : Sys := settleReq 1 1 envOK sys7b

/-- C7 trace, step 4: job 2 settles with the analyzer failing throughout. -/
def sys7d : Sys := settleReq 1 2 envFail3 sys7c

/-- Two requests identical except for the focusAreas option. -/
def reqFocusA : Req := { reqHit with focusAreas := some ["aim"] }

/-- Partner request of reqFocusA with a different focus area. -/
def reqFocusB : Req := { reqHit with focusAreas := some ["positioning"] }

/-- A request identical to reqHit in bytes and key options but from another
caller with different prompt options. -/
def reqOtherCaller : Req :=
  { reqFocusA with
    callerId := "someone-else"
    language := "de"
    focusAreas := some ["building"] }

/-- A second submission of the same bytes and options from another caller. -/
def reqTwin : Req := { reqHit with callerId := "second-caller" }

/-- The concrete durable store used by the persistence witness. -/
def fs0 : FS := [("analysisCache.json", "OLD")]

/-- processNext never changes the deliveredTo log. -/
theorem processNext_deliveredTo (m : Nat) (s : QState) :
    (processNext m s).deliveredTo = s.deliveredTo := by
  unfold processNext
  split
  · rfl
  · split <;> rfl

/-- processNext never changes the notifiedQueued log. -/
theorem processNext_notifiedQueued (m : Nat) (s : QState) :
    (processNext m s).notifiedQueued = s.notifiedQueued := by
  unfold processNext
  split
  · rfl
  · split <;> rfl

/-- The deliveredTo log after a settlement: unchanged when the job had
received the queued notification, extended by the job otherwise. -/
theorem settleJob_deliveredTo (m j : Nat) (s : QState) :
    (settleJob m j s).deliveredTo =
      if j ∈ s.notifiedQueued.map Prod.fst then s.deliveredTo
      else s.deliveredTo ++ [j] := by
  unfold settleJob
  rw [processNext_deliveredTo]
  split <;> simp_all

/-- processNext keeps the running counter at or below the ceiling. -/
theorem running_processNext_le (m : Nat) (s : QState) (h : s.running ≤ m) :
    (processNext m s).running ≤ m := by
  unfold processNext QState.running at *
  by_cases hm : m ≤ s.runningIds.length
  · simp [hm]; exact h
  · cases hq : s.queue with
    | nil => simp [hm, hq]; exact h
    | cons j rest =>
      simp [hm, hq]
      omega

/-- When the pool is saturated, enqueue only appends the job and emits the
queued notification at position queue length plus one; nothing is
dispatched. -/
theorem enqueue_saturated (m j : Nat) (s : QState) (h : m ≤ s.running) :
    enqueue m j s =
      { s with
        queue := s.queue ++ [j]
        notifiedQueued := s.notifiedQueued ++ [(j, s.queue.length + 1)] } := by
  unfold enqueue processNext QState.running at *
  simp [h]

/-- A submission to the idle initial state is dispatched at once: running
becomes one and no queued notification is emitted. -/
theorem enqueue_init_running (m j : Nat) (hm : 1 ≤ m) :
    (enqueue m j QState.init).running = 1 := by
  have h0 : ¬ (m ≤ 0) := by omega
  simp [enqueue, processNext, QState.init, QState.running, h0]

/-- Looking up the key just written into the cache returns the value. -/
theorem Cache.lookup_set_self (c : Cache) (k : CacheKey) (v : Resp) :
    Cache.lookup (Cache.set c k v) k = some v := by
  induction c with
  | nil => simp [Cache.set, Cache.lookup]
  | cons e rest ih =>
    by_cases h : e.1 = k
    · simp [Cache.set, Cache.lookup, h]
    · simp [Cache.set, Cache.lookup, h, ih]

/-- With at least three failing attempts, openaiRetry with three tries makes
exactly three attempts, sleeping 800 then 1600 between them, and rethrows. -/
theorem openaiRetry_exhausted (f : Nat) (h : 3 ≤ f) :
    openaiRetry f 3 = RetryResult.exhausted 3 [800, 1600] := by
  have h0 : 0 < f := by omega
  have h1 : 1 < f := by omega
  have h2 : 2 < f := by omega
  show retryGo f 3 0 800 [] = RetryResult.exhausted 3 [800, 1600]
  rw [retryGo, retryGo, retryGo]
  simp [h0, h1, h2]

/-- Reading back the path just written returns the data. -/
theorem FS.read_write_self (fs : FS) (p c : String) :
    FS.read (FS.write fs p c) p = some c := by
  induction fs with
  | nil => simp [FS.write, FS.read]
  | cons e rest ih =>
    by_cases h : e.1 = p
    · simp [FS.write, FS.read, h]
    · simp [FS.write, FS.read, h, ih]

/-- Writing one path leaves every other path unchanged. -/
theorem FS.read_write_ne (fs : FS) (p q c : String) (h : p ≠ q) :
    FS.read (FS.write fs p c) q = FS.read fs q := by
  induction fs with
  | nil => simp [FS.write, FS.read, h]
  | cons e rest ih =>
    by_cases he : e.1 = p
    · subst he
      simp [FS.write, FS.read, h]
    · simp [FS.write, FS.read, he, ih]

/-- The temporary name of atomicWrite differs from the durable name. -/
theorem tmpName_ne (file : String) (now : Nat) : tmpName file now ≠ file := by
  intro h
  have hl : (file ++ ".tmp-" ++ toString now).length = file.length :=
    congrArg String.length h
  rw [String.length_append, String.length_append] at hl
  have h5 : String.length ".tmp-" = 5 := rfl
  omega

/-- A completed atomicWrite leaves the new data at the durable path. -/
theorem read_atomicWrite_self (fs : FS) (file : String) (now : Nat) (data : String) :
    FS.read (atomicWrite fs file now data) file = some data := by
  unfold atomicWrite FS.rename
  rw [FS.read_write_self]
  exact FS.read_write_self _ _ _

/-- C2: at every reachable admission state the running counter is at most
MAX_CONCURRENT; both operations (a submission with its dispatch, and a
settlement with its dispatch of the next queued job) preserve the bound. -/
theorem c2_running_le_max (m : Nat) (s : QState) (h : Reach m s) :
    s.running ≤ m := by
  induction h with
  | start => simp [QState.init, QState.running]
  | step_enqueue s j hr ih =>
    unfold enqueue
    apply running_processNext_le
    split <;> simpa [QState.running] using ih
  | step_settle s j hr hj ih =>
    have ih2 : s.runningIds.length ≤ m := ih
    have hle : (s.runningIds.erase j).length ≤ s.runningIds.length :=
      (List.erase_sublist j s.runningIds).length_le
    unfold settleJob
    apply running_processNext_le
    split <;> (simp [QState.running]; omega)

/-- Witness for C2 at a concrete reachable state: MAX_CONCURRENT = 1 with
one submitted job. -/
theorem c2_running_le_max_witness :
    Reach 1 (enqueue 1 7 QState.init) ∧ (enqueue 1 7 QState.init).running ≤ 1 :=
  ⟨Reach.step_enqueue QState.init 7 Reach.start,
   c2_running_le_max 1 (enqueue 1 7 QState.init)
     (Reach.step_enqueue QState.init 7 Reach.start)⟩

/-- C8: persist writes the serialised cache to a temporary path and renames
it over the durable file, so every crash point (before anything, after a
torn temporary write of arbitrary content halfData, after the full
temporary write, after the rename) leaves the durable path holding either
its prior content or the complete new data, never a torn version of it; and
loadCache is a total function that yields the empty cache on a missing
durable file and on one whose contents fail to parse. -/
theorem c8_atomic_persist_restore (fs : FS) (file : String) (now : Nat)
    (data halfData : String)
    (parse : String → Option (List (String × String))) :
    (∀ s ∈ atomicWriteCrashStates fs file now data halfData,
        FS.read s file = FS.read fs file ∨ FS.read s file = some data) ∧
    (∀ fs2 : FS, FS.read fs2 file = none → loadCache fs2 file parse = []) ∧
    (∀ (fs2 : FS) (str : String), FS.read fs2 file = some str →
        parse str = none → loadCache fs2 file parse = []) := by
  refine ⟨?_, ?_, ?_⟩
  · intro s hs
    simp only [atomicWriteCrashStates, List.mem_cons, List.not_mem_nil,
      or_false] at hs
    rcases hs with rfl | rfl | rfl | rfl
    · left; rfl
    · left; exact FS.read_write_ne fs (tmpName file now) file halfData (tmpName_ne file now)
    · left; exact FS.read_write_ne fs (tmpName file now) file data (tmpName_ne file now)
    · right; exact read_atomicWrite_self fs file now data
  · intro fs2 h
    unfold loadCache
    rw [h]
  · intro fs2 str h hp
    unfold loadCache
    rw [h]
    simp [hp]

/-- Witness for C8: the concrete store fs0 holding OLD, crashing right
after the torn temporary write leaves the durable file readable as OLD. -/
theorem c8_atomic_persist_restore_witness :
    FS.read (FS.write fs0 (tmpName "analysisCache.json" 42) "N")
        "analysisCache.json" = FS.read fs0 "analysisCache.json" ∨
    FS.read (FS.write fs0 (tmpName "analysisCache.json" 42) "N")
        "analysisCache.json" = some "NEW" :=
  (c8_atomic_persist_restore fs0 "analysisCache.json" 42 "NEW" "N"
      (fun _ => none)).1
    (FS.write fs0 (tmpName "analysisCache.json" 42) "N")
    (List.mem_cons_of_mem _ (List.mem_cons_self _ _))

/-- C1 counterexample: a submission whose content key is already present in
the ResultCache still goes through the queue and occupies a worker slot.
The running counter moves from 0 to 1 at submission, contradicting the
claim that a cache-hit submission leaves it unchanged and never occupies a
slot: admission (lines 325-326 and 137-152) never consults the cache, which
is read only inside the job at line 208. -/
theorem c1_counterexample :
    Cache.lookup sysHit.cache (cacheKeyOf reqHit) = some respStored ∧
    sysHit.qs.running = 0 ∧
    (submitReq 3 1 reqHit sysHit).qs.running = 1 :=
  ⟨rfl, rfl, rfl⟩

/-- C1 amended: a cache-hit submission is admitted exactly like any other
and occupies a worker slot (from an idle system its running counter becomes
one); the short-circuit happens only inside the dispatched job, which
deletes the uploaded artifact, calls neither ffmpeg subprocess nor the
analyzer, returns the cached entry with cached set to true and leaves the
cache unchanged. -/
theorem c1_amended (req : Req) (env : Env) (cache : Cache) (g rt : String)
    (entry : Resp)
    (hf : req.filePresent = true) (hg : req.game = some g)
    (hrt : req.responseType = some rt) (hv : failsValidation req = false)
    (hc : Cache.lookup cache (cacheKeyOf req) = some entry)
    (sys : Sys) (m j : Nat) (hq : sys.qs = QState.init) (hm : 1 ≤ m) :
    handleAnalysis req env cache =
      (Except.ok (JsResult.success { entry with cached := true }),
       { uploadUnlinks := 1 }, cache) ∧
    (submitReq m j req sys).qs.running = 1 := by
  constructor
  · unfold handleAnalysis
    rw [hf, hg, hrt]
    simp [hv, hc]
  · show (enqueue m j sys.qs).running = 1
    rw [hq]
    exact enqueue_init_running m j hm

/-- Witness for C1 amended at the concrete cache-hit scenario. -/
theorem c1_amended_witness :
    handleAnalysis reqHit envOK [(cacheKeyOf reqHit, respStored)] =
      (Except.ok (JsResult.success { respStored with cached := true }),
       { uploadUnlinks := 1 }, [(cacheKeyOf reqHit, respStored)]) ∧
    (submitReq 3 2 reqHit sysHit).qs.running = 1 :=
  c1_amended reqHit envOK [(cacheKeyOf reqHit, respStored)] "fortnite" "text"
    respStored rfl rfl rfl rfl rfl sysHit 3 2 rfl (by omega)

/-- C10 counterexample: an artifact whose detected type is image/png is
submitted while the pool is saturated; it is appended to the queue and
answered with the queued-at-position notice, and at that point no
InvalidInput failure has been reported and the artifact has not been
deleted (no settled result, no recorded effects).  Validation only runs
inside the job, after queueing and dispatch. -/
theorem c10_counterexample :
    failsValidation reqBad = true ∧
    sysB.qs.queue = [2] ∧
    sysB.qs.notifiedQueued = [(2, 1)] ∧
    sysB.results = [] ∧
    sysB.effectsOf = [] :=
  ⟨rfl, rfl, rfl, rfl, rfl⟩

/-- C10 amended: media-kind validation happens inside job execution, after
the submission has been queued and dispatched (a saturated system first
parks the submission in the queue behind a queued notification); when the
job runs, a mismatch deletes the artifact, returns the Invalid video
failure through the job handle, invokes neither ffmpeg nor the analyzer
and leaves the cache unchanged. -/
theorem c10_amended (req : Req) (env : Env) (cache : Cache) (g rt : String)
    (hf : req.filePresent = true) (hg : req.game = some g)
    (hrt : req.responseType = some rt) (hv : failsValidation req = true)
    (sys : Sys) (m j : Nat) (hsat : m ≤ sys.qs.running) :
    handleAnalysis req env cache =
      (Except.ok (JsResult.failure "Invalid video"),
       { uploadUnlinks := 1 }, cache) ∧
    (submitReq m j req sys).qs.queue = sys.qs.queue ++ [j] := by
  constructor
  · unfold handleAnalysis
    rw [hf, hg, hrt]
    simp [hv]
  · show (enqueue m j sys.qs).queue = sys.qs.queue ++ [j]
    rw [enqueue_saturated m j sys.qs hsat]

/-- Witness for C10 amended at the concrete invalid-artifact scenario. -/
theorem c10_amended_witness :
    handleAnalysis reqBad envOK [] =
      (Except.ok (JsResult.failure "Invalid video"),
       { uploadUnlinks := 1 }, []) ∧
    (submitReq 1 2 reqBad sysA).qs.queue = sysA.qs.queue ++ [2] :=
  c10_amended reqBad envOK [] "fortnite" "text" rfl rfl rfl rfl sysA 1 2
    (by decide)

/-- C4: with MAX_CONCURRENT = 1 and one job running (so worker pool
saturated and, under MAX_QUEUE = 0, the queue also saturated), the second
submission is appended to the queue and answered with the queued-at-
position-1 notice; no rejection of any kind exists in enqueue, which takes
no queue bound (the parsed MAX_QUEUE constant of line 34 is never read). -/
theorem c4_no_queuefull_rejection :
    sysC4b.qs.queue = [2] ∧
    sysC4b.qs.notifiedQueued = [(2, 1)] ∧
    sysC4b.qs.running = 1 ∧
    MAX_QUEUE (some 0) = 0 :=
  ⟨rfl, rfl, rfl, rfl⟩

/-- C5 counterexample: job 2 is queued behind job 1 and receives the
queued-at-position-1 notification; after both jobs settle, job 2 is
finished and a result was recorded for it internally, yet its terminal
result was never delivered through its response handle (deliveredTo holds
only job 1), because the terminal write is guarded by headersSent. -/
theorem c5_counterexample :
    sys5b.qs.notifiedQueued = [(2, 1)] ∧
    sys5d.qs.finished = [1, 2] ∧
    gotResult sys5d 2 = true ∧
    sys5d.qs.deliveredTo = [1] :=
  ⟨rfl, rfl, rfl, rfl⟩

/-- C5 amended: a job that received the queued-at-position notification
never receives its terminal result through the response handle (the
settlement write is suppressed by the headersSent guard); only a job
admitted without the queued notification is delivered its terminal
result. -/
theorem c5_amended (m j : Nat) (s : QState) :
    (j ∈ s.notifiedQueued.map Prod.fst →
       (settleJob m j s).deliveredTo = s.deliveredTo) ∧
    (j ∉ s.notifiedQueued.map Prod.fst →
       (settleJob m j s).deliveredTo = s.deliveredTo ++ [j]) := by
  constructor <;> intro h <;> simp [settleJob_deliveredTo, h]

/-- Witness for C5 amended: settling notified job 2 in the concrete trace
leaves deliveredTo unchanged. -/
theorem c5_amended_witness :
    (settleJob 1 2 sys5c.qs).deliveredTo = sys5c.qs.deliveredTo :=
  (c5_amended 1 2 sys5c.qs).1 (by decide)

/-- A request with the uploaded file present but the game field missing. -/
def reqNoGame : Req := { reqHit with game := none }

/-- C3: at the failing input (valid video, cache miss, two extracted
frames, analyzer failing on all three attempts) the thrown error escapes
before the cleanup of lines 312-313: the extracted frame files and the
scratch frame directory are never deleted, contradicting cleanup on every
path.  A second leak: the missing-required-fields return of line 192 never
unlinks an uploaded file. -/
theorem c3_temp_file_leak :
    (handleAnalysis reqC3 envFail3 []).1 = Except.error () ∧
    (handleAnalysis reqC3 envFail3 []).2.1.frameDirCreated = true ∧
    (handleAnalysis reqC3 envFail3 []).2.1.framesUnlinked = false ∧
    (handleAnalysis reqC3 envFail3 []).2.1.frameDirRemoved = false ∧
    (handleAnalysis reqC3 envFail3 []).2.1.uploadUnlinks = 1 ∧
    reqNoGame.filePresent = true ∧
    (handleAnalysis reqNoGame envOK []).2.1.uploadUnlinks = 0 :=
  ⟨rfl, rfl, rfl, rfl, rfl, rfl, rfl⟩

/-- C6: after a first successful run of a request, a second submission with
identical bytes and the same game, userTier and detailLevel is served from
the cache: it returns the payload stored by the first run with cached set
to true, unlinks its own upload, leaves the cache unchanged and invokes
neither ffmpeg subprocess nor the analyzer (the effects record carries its
defaults: extractorCalled and sceneDetectCalled false, analyzerAttempts
zero). -/
theorem c6_cached_second (req1 req2 : Req) (env1 env2 : Env) (cache0 : Cache)
    (g rt rt2 : String) (a : Nat) (sl : List Nat)
    (hf1 : req1.filePresent = true) (hg1 : req1.game = some g)
    (hrt1 : req1.responseType = some rt) (hv1 : failsValidation req1 = false)
    (hc0 : Cache.lookup cache0 (cacheKeyOf req1) = none)
    (hr1 : openaiRetry env1.analyzerFailures 3 = RetryResult.success a sl)
    (hf2 : req2.filePresent = true) (hg2 : req2.game = some g)
    (hrt2 : req2.responseType = some rt2) (hv2 : failsValidation req2 = false)
    (hbytes : req2.fileBytes = req1.fileBytes)
    (htier : req2.userTier = req1.userTier)
    (hdetail : req2.detailLevel = req1.detailLevel) :
    handleAnalysis req2 env2 ((handleAnalysis req1 env1 cache0).2.2) =
      (Except.ok (JsResult.success
         { freshResp req1 env1 g rt with cached := true }),
       { uploadUnlinks := 1 },
       (handleAnalysis req1 env1 cache0).2.2) := by
  have hkey : cacheKeyOf req2 = cacheKeyOf req1 := by
    simp [cacheKeyOf, sha256, hbytes, htier, hdetail, hg1, hg2]
  have h1 : (handleAnalysis req1 env1 cache0).2.2 =
      Cache.set cache0 (cacheKeyOf req1) (freshResp req1 env1 g rt) := by
    unfold handleAnalysis
    rw [hf1, hg1, hrt1]
    simp [hv1, hc0, hr1]
  rw [h1]
  unfold handleAnalysis
  rw [hf2, hg2, hrt2]
  simp [hv2, hkey, Cache.lookup_set_self]

/-- Witness for C6: reqHit analysed once on an empty cache, then the same
bytes and options resubmitted by a different caller. -/
theorem c6_cached_second_witness :
    handleAnalysis reqTwin envOK ((handleAnalysis reqHit envOK []).2.2) =
      (Except.ok (JsResult.success
         { freshResp reqHit envOK "fortnite" "text" with cached := true }),
       { uploadUnlinks := 1 },
       (handleAnalysis reqHit envOK []).2.2) :=
  c6_cached_second reqHit reqTwin envOK envOK [] "fortnite" "text" "text" 1 []
    rfl rfl rfl rfl rfl rfl rfl rfl rfl rfl rfl rfl rfl

/-- C7 counterexample: in the concrete trace job 2 was queued with a
notification, then its analyzer failed all three attempts; the job is
finished with a recorded thrown failure, but nothing was ever delivered to
its caller (deliveredTo misses job 2), so the terminal failure does not
reach the submitter of a queued job. -/
theorem c7_counterexample :
    (effectsAt sys7d 2).analyzerAttempts = 3 ∧
    (effectsAt sys7d 2).analyzerSlept = [800, 1600] ∧
    isErrResult sys7d 2 = true ∧
    sys7d.qs.finished = [1, 2] ∧
    2 ∉ sys7d.qs.deliveredTo :=
  ⟨rfl, rfl, rfl, rfl, by decide⟩

/-- C7 amended: when the analyzer fails at least three consecutive times,
the job makes exactly three attempts with exponentially increasing backoff
delays 800 then 1600 ms, terminates by rethrowing the failure, does not
populate the cache, and leaves the frame files and scratch directory on
disk; the terminal 500 response reaches the caller only when no queued
notification was emitted for the job, since a settlement of a notified job
delivers nothing. -/
theorem c7_amended (req : Req) (env : Env) (cache : Cache) (g rt : String)
    (hf : req.filePresent = true) (hg : req.game = some g)
    (hrt : req.responseType = some rt) (hv : failsValidation req = false)
    (hc : Cache.lookup cache (cacheKeyOf req) = none)
    (hfail : 3 ≤ env.analyzerFailures) :
    handleAnalysis req env cache =
      (Except.error (),
       effExhausted 3 [800, 1600] (payloadOf req env g), cache) ∧
    (∀ (m j : Nat) (s : QState), j ∈ s.notifiedQueued.map Prod.fst →
       (settleJob m j s).deliveredTo = s.deliveredTo) := by
  constructor
  · unfold handleAnalysis
    rw [hf, hg, hrt]
    simp [hv, hc, openaiRetry_exhausted env.analyzerFailures hfail]
  · intro m j s h
    simp [settleJob_deliveredTo, h]

/-- Witness for C7 amended at the concrete failing environment. -/
theorem c7_amended_witness :
    handleAnalysis reqC3 envFail3 [] =
      (Except.error (),
       effExhausted 3 [800, 1600] (payloadOf reqC3 envFail3 "fortnite"), []) :=
  (c7_amended reqC3 envFail3 [] "fortnite" "text" rfl rfl rfl rfl rfl
    (by decide)).1

/-- C9 counterexample: two submissions with identical bytes and identical
game, userTier and detailLevel but different focusAreas share one cache
key, yet their analyzer payloads differ (the weighted focus list enters the
prompt), so an output-affecting option does not separate the keys. -/
theorem c9_counterexample :
    cacheKeyOf reqFocusA = cacheKeyOf reqFocusB ∧
    payloadOf reqFocusA envOK "fortnite" ≠ payloadOf reqFocusB envOK "fortnite" :=
  ⟨rfl, by decide⟩

/-- C9 amended: the cache key is exactly the content hash together with
game, userTier and detailLevel; it is invariant under every other request
field, including the caller identity and the prompt-affecting options
focusAreas, language, feedbackStyle, skillLevel, extraNotes, playerBio,
audioInClip and responseType. -/
theorem c9_amended (r1 r2 : Req)
    (hb : r1.fileBytes = r2.fileBytes) (hg : r1.game = r2.game)
    (ht : r1.userTier = r2.userTier) (hd : r1.detailLevel = r2.detailLevel) :
    cacheKeyOf r1 = cacheKeyOf r2 := by
  simp [cacheKeyOf, sha256, hb, hg, ht, hd]

/-- Witness for C9 amended: a request from another caller with different
prompt options maps to the same key. -/
theorem c9_amended_witness :
    cacheKeyOf reqFocusA = cacheKeyOf reqOtherCaller :=
  c9_amended reqFocusA reqOtherCaller rfl rfl rfl rfl
